import Mathlib

/-!
Shallow embedding of the SleepTracker program (src/main.py): an audio spike
monitor (`AudioMonitor`), a parallel A/V recorder (`RecorderThread`) and the
GUI gate (`SleepMonitorApp`).  Machine reals are modelled by `ℚ` where the
code only does field arithmetic and comparisons, and by `ℝ` (wrapped in
`NpVal`, which also carries numpy's NaN and -inf) where the code takes
logarithms and square roots.
-/

namespace SleepTracker

/-! ### Recorder constants and temp-file names (src/main.py lines 31-34) -/

/-- `fps_target, sr, ch = 20, 44100, 1` (line 33). -/
def fps_target : ℚ := 20

/-- `v_tmp = f'v_{ts}.mp4'` (line 32). -/
def vName (ts : String) : String := "v_" ++ ts ++ ".mp4"

/-- `a_tmp = f'a_{ts}.wav'` (line 32). -/
def aName (ts : String) : String := "a_" ++ ts ++ ".wav"

/-- `fixed_video = f'vfix_{ts}.mp4'` (line 63). -/
def vfixName (ts : String) : String := "vfix_" ++ ts ++ ".mp4"

/-- `final = f'sleep_{ts}.mp4'` (line 32). -/
def finalName (ts : String) : String := "sleep_" ++ ts ++ ".mp4"

/-! ### Actual-fps computation and the 0.1 fps correction threshold
(src/main.py lines 54, 61-62) -/

/-- `actual_fps = frames_written / elapsed if elapsed else fps_target`
(line 61), where `elapsed = self.duration` is the nominal requested
duration (line 54: `elapsed = self.duration  # by construction`), not a
measured wall-clock time.  `duration` is the integer from the GUI spin box. -/
def actual_fps (frames_written duration : ℕ) : ℚ :=
  if duration ≠ 0 then (frames_written : ℚ) / (duration : ℚ) else fps_target

/-- The retiming decision `abs(actual_fps - fps_target) > 0.1` (line 62). -/
def needsCorrection (target actual : ℚ) : Bool :=
  decide (|actual - target| > 1/10)

/-- Left-pad a digit string with zeros to 4 characters. -/
def pad4 (s : String) : String :=
  if s.length < 4 then String.mk (List.replicate (4 - s.length) '0') ++ s else s

/-- The frame-rate argument `f'{actual_fps:.4f}'` (line 64): the value
rounded to 4 decimal places and printed with exactly 4 digits after the
point (the recorder only ever formats nonnegative rates). -/
def format4 (q : ℚ) : String :=
  toString (round (q * 10000) / 10000) ++ "."
    ++ pad4 (toString ((round (q * 10000)) % 10000).toNat)

/-! ### Session finalization (src/main.py lines 54-74) -/

/-- The retiming decision of the finalization phase: whether retiming is
invoked, with which frame-rate argument, and which video file reaches the
muxer. -/
structure FinalizeResult where
  retimeInvoked : Bool
  retimeFpsArg : Option String
  muxVideoInput : String
  deriving Repr, DecidableEq

/-- Retiming decision of `RecorderThread.run` (lines 54, 61-64): compute
`actual_fps` from the written frame count and the nominal duration; if the
deviation from `fps_target` exceeds 0.1, invoke ffmpeg to retime the raw
video to `f'{actual_fps:.4f}'` and switch `v_tmp` to the retimed file,
which is then what reaches the muxer; otherwise the raw video file goes to
the muxer unchanged.  The two `subprocess.run` calls (lines 64 and 69) do
not check their exit status (`check=True` is absent and `returncode` is
never read), so `retimeExit` and `muxExit` are carried as inputs that the
code ignores. -/
def finalize (ts : String) (duration frames_written : ℕ)
    (retimeExit muxExit : ℕ) : FinalizeResult :=
  if needsCorrection fps_target (actual_fps frames_written duration) then
    { retimeInvoked := true
      retimeFpsArg := some (format4 (actual_fps frames_written duration))
      muxVideoInput := vfixName ts }
  else
    { retimeInvoked := false
      retimeFpsArg := none
      muxVideoInput := vName ts }

/-- Observable effects of the finalization tail (lines 62-74): the temp
files actually removed (in order), the `finished_recording` emission, and
whether an uncaught `FileNotFoundError` escaped the thread. -/
structure TailResult where
  removed : List String
  emitted : Option String
  raised : Bool
  deriving Repr, DecidableEq

/-- The finalization tail of `RecorderThread.run` (lines 62-74), with its
error path.  On the retiming path (deviation > 0.1): line 64 runs the
retimer (exit status `retimeExit` ignored), line 66 removes the raw video
— which exists, the `VideoWriter` created it — and rebinds `v_tmp` to
`vfix_<ts>.mp4`; lines 69-72 run the muxer (exit status `muxExit`
ignored); line 73 then removes `v_tmp`: if the retimer did not actually
produce an output file (`vfixProduced = false`), this `os.remove` raises
`FileNotFoundError`, the exception escapes `run()`, `a_tmp` is never
removed and `finished_recording` is never emitted — so `on_done` never
runs and `rec_active` stays set.  If the retimed file exists, or on the
no-retiming path where `v_tmp` is still the raw video, line 73 removes
`v_tmp` and `a_tmp` (both exist) and line 74 emits
`finished_recording(final)` — regardless of either exit status. -/
def finalizeRun (ts : String) (duration frames_written : ℕ)
    (retimeExit muxExit : ℕ) (vfixProduced : Bool) : TailResult :=
  if needsCorrection fps_target (actual_fps frames_written duration) then
    if vfixProduced then
      { removed := [vName ts, vfixName ts, aName ts]
        emitted := some (finalName ts)
        raised := false }
    else
      { removed := [vName ts]
        emitted := none
        raised := true }
  else
    { removed := [vName ts, aName ts]
      emitted := some (finalName ts)
      raised := false }

/-! ### The paced video-capture loop (src/main.py lines 43-53) -/

/-- State of the paced loop: the monotonic clock reading `t`
(`time.perf_counter()`), the virtual deadline `next_frame_t`, and
`frames_written`. -/
structure LoopState where
  t : ℚ
  next_frame_t : ℚ
  frames_written : ℕ
  deriving Repr, DecidableEq

/-- One iteration of the loop body (lines 48-53): read a frame (success
`readOk`, taking `readCost ≥ 0` of clock time); on success write it and
increment `frames_written`; advance `next_frame_t` by `frame_interval`
unconditionally; sleep exactly until the new deadline if it is still in
the future, otherwise continue immediately. -/
def loopBody (frame_interval : ℚ) (readOk : Bool) (readCost : ℚ)
    (s : LoopState) : LoopState :=
  let t1 := s.t + readCost
  let written := if readOk then s.frames_written + 1 else s.frames_written
  let next1 := s.next_frame_t + frame_interval
  let sleep_for := next1 - t1
  let t2 := if sleep_for > 0 then t1 + sleep_for else t1
  ⟨t2, next1, written⟩

/-- The loop guard `time.perf_counter() < end_t` (line 47), where
`end_t = next_frame_t + self.duration` and `next_frame_t` was initialised
to the session-start clock reading (lines 44-46). -/
def loopCond (end_t : ℚ) (s : LoopState) : Bool := decide (s.t < end_t)

/-- The whole loop, driven by a finite oracle `steps` giving each potential
iteration's frame-read outcome and clock cost: iterate `loopBody` while
the guard holds. -/
def runLoop (frame_interval end_t : ℚ) (steps : List (Bool × ℚ))
    (s : LoopState) : LoopState :=
  match steps with
  | [] => s
  | (ok, c) :: rest =>
    if loopCond end_t s then
      runLoop frame_interval end_t rest (loopBody frame_interval ok c s)
    else s

/-! ### Session start (src/main.py lines 36-41) -/

/-- Outcome of a phase of `RecorderThread.run`: either a Python exception
escaping the thread, or normal continuation; both record which temp files
have been created so far. -/
inductive RunOutcome (α : Type) where
  | exn (created : List String)
  | ok (created : List String) (a : α)
  deriving Repr, DecidableEq

/-- Temp files created by a phase outcome. -/
def RunOutcome.created {α : Type} : RunOutcome α → List String
  | .exn c => c
  | .ok c _ => c

/-- Session start (lines 36-41): `cv2.VideoCapture(0)` never raises — a
camera that cannot be opened (`camOpenOk = false`) only makes every later
`cap.read()` return `False`, and no `isOpened` check exists.  The
`cv2.VideoWriter` constructor then creates the video temp file `v_<ts>.mp4`.
Only afterwards is the audio input stream opened and started; if the audio
device cannot be opened (`audioOpenOk = false`), `sd.InputStream` raises and
the thread aborts — with `v_<ts>.mp4` already on disk.  On success the
returned Boolean records whether frame reads will succeed. -/
def startPhase (ts : String) (camOpenOk audioOpenOk : Bool) :
    RunOutcome Bool :=
  let created := [vName ts]
  if audioOpenOk then .ok created camOpenOk else .exn created

/-! ### The level meter (src/main.py lines 18-21)

`db = 20 * np.log10(np.sqrt(np.mean(indata**2)) + 1e-6)`.  numpy arithmetic
is total: `np.mean` of an empty array yields NaN (with a RuntimeWarning, not
an exception), `np.sqrt` of a negative or NaN yields NaN, `np.log10` of zero
yields -inf and of a negative or NaN yields NaN.  `NpVal` carries these
non-finite results alongside finite real values. -/

/-- A numpy floating-point scalar: NaN, -inf, or a finite real. -/
inductive NpVal where
  | nan : NpVal
  | neginf : NpVal
  | fin : ℝ → NpVal

/-- `np.mean(indata**2)`: the mean of the squared samples; numpy's mean of
an empty array is NaN. -/
noncomputable def npMeanSq (samples : List ℝ) : NpVal :=
  if samples.isEmpty then .nan
  else .fin ((samples.map (fun x => x ^ 2)).sum / samples.length)

/-- `np.sqrt`: NaN on NaN, -inf and negative inputs. -/
noncomputable def npSqrt : NpVal → NpVal
  | .nan => .nan
  | .neginf => .nan
  | .fin r => if r < 0 then .nan else .fin (Real.sqrt r)

/-- Adding the finite floor `1e-6`; NaN propagates, `-inf + c = -inf`. -/
noncomputable def npAddFloor (v : NpVal) (c : ℝ) : NpVal :=
  match v with
  | .nan => .nan
  | .neginf => .neginf
  | .fin r => .fin (r + c)

/-- `np.log10`: NaN on NaN and negative inputs, -inf at zero (and on -inf). -/
noncomputable def npLog10 : NpVal → NpVal
  | .nan => .nan
  | .neginf => .nan
  | .fin r => if r < 0 then .nan else if r = 0 then .neginf
              else .fin (Real.logb 10 r)

/-- Scaling by the finite factor 20; NaN propagates, `20 * -inf = -inf`. -/
noncomputable def npScale20 : NpVal → NpVal
  | .nan => .nan
  | .neginf => .neginf
  | .fin r => .fin (20 * r)

/-- The level meter (line 20):
`20 * np.log10(np.sqrt(np.mean(indata**2)) + 1e-6)`. -/
noncomputable def level (samples : List ℝ) : NpVal :=
  npScale20 (npLog10 (npAddFloor (npSqrt (npMeanSq samples)) 1e-6))

/-- The comparison `db > self.threshold_db` (line 21) on a numpy scalar:
NaN compares false against everything, and -inf exceeds nothing. -/
def npGtR : NpVal → ℝ → Prop
  | .nan, _ => False
  | .neginf, _ => False
  | .fin r, th => th < r

/-- The root-mean-square of a block as a plain real, for stating what
`level` returns on well-formed (nonempty) blocks. -/
noncomputable def rmsR (samples : List ℝ) : ℝ :=
  Real.sqrt ((samples.map (fun x => x ^ 2)).sum / samples.length)

/-! ### The spike callback on computed levels (src/main.py lines 18-21)

For claims about which blocks of a session raise `spike_detected`, the
callback is modelled on the already-computed dB level of each block (the
levels are the data the claims quantify over), as a rational. -/

/-- The body of `cb` (lines 19-21): return early unless `self.running`,
then emit exactly when `db > self.threshold_db` (strict). -/
def cbFires (running : Bool) (threshold_db db : ℚ) : Bool :=
  running && decide (threshold_db < db)

/-- Indices (counting from `i`) of the blocks of a level sequence that
raise `spike_detected` during an active session. -/
def sessionSpikesFrom (threshold_db : ℚ) (i : ℕ) : List ℚ → List ℕ
  | [] => []
  | db :: rest =>
    if cbFires true threshold_db db then
      i :: sessionSpikesFrom threshold_db (i + 1) rest
    else sessionSpikesFrom threshold_db (i + 1) rest

/-- Indices of the blocks that raise `spike_detected` during an active
session, for a sequence of block levels. -/
def sessionSpikes (threshold_db : ℚ) (dbs : List ℚ) : List ℕ :=
  sessionSpikesFrom threshold_db 0 dbs

/-! ### Monitor lifecycle as an interleaving transition system
(src/main.py lines 12-24 and 89-93)

`AudioMonitor.run` sets `running := True`, opens the input stream (whose
callback thread delivers blocks), and spins until `running` is cleared;
leaving the `with` block closes the stream — no callback runs after that —
and the thread exits.  `stop_mon` calls `stop()` (clears `running`) and
then `wait()`, which blocks until the thread has exited.  Events of the
system are interleaved atomically; delivery of a block can only happen
while the stream is open. -/

/-- Monitor lifecycle state: whether the thread was started, the `running`
flag, whether the QThread is still alive, whether the input stream is open,
and whether `stop_mon`'s `wait()` has returned. -/
structure MonState where
  started : Bool
  running : Bool
  threadAlive : Bool
  streamOpen : Bool
  stopReturned : Bool
  deriving Repr, DecidableEq

/-- Before `start_mon`: nothing started, nothing running. -/
def monInit : MonState :=
  { started := false, running := false, threadAlive := false
    streamOpen := false, stopReturned := false }

/-- Atomic events of the monitor lifecycle: the session start
(`mon.start()` through the stream opening), delivery of one audio block to
the callback, the `stop()` call, the monitor thread observing
`not running` and exiting (closing the stream first), and `wait()`
returning in `stop_mon`. -/
inductive MonEvent where
  | startMon : MonEvent
  | deliver : ℚ → MonEvent
  | stopCall : MonEvent
  | threadExit : MonEvent
  | stopRet : MonEvent

/-- One interleaved step: `none` when the event is not enabled, otherwise
the next state and whether `spike_detected` was emitted by the step.
`deliver` requires the stream to be open and emits per `cbFires`;
`threadExit` requires the run loop to have observed `running = false`;
`stopRet` models `wait()` returning, which requires the thread to have
terminated. -/
def monStep (threshold_db : ℚ) (s : MonState) :
    MonEvent → Option (MonState × Bool)
  | .startMon =>
    if s.started then none
    else some ({ s with started := true, running := true
                        threadAlive := true, streamOpen := true }, false)
  | .deliver db =>
    if s.streamOpen then some (s, cbFires s.running threshold_db db)
    else none
  | .stopCall => some ({ s with running := false }, false)
  | .threadExit =>
    if s.threadAlive && !s.running then
      some ({ s with threadAlive := false, streamOpen := false }, false)
    else none
  | .stopRet =>
    if s.started && !s.threadAlive && !s.stopReturned then
      some ({ s with stopReturned := true }, false)
    else none

/-- States reachable from `monInit` by enabled steps. -/
inductive MonReachable (threshold_db : ℚ) : MonState → Prop where
  | init : MonReachable threshold_db monInit
  | step (s : MonState) (e : MonEvent) (s' : MonState) (b : Bool) :
      MonReachable threshold_db s → monStep threshold_db s e = some (s', b) →
      MonReachable threshold_db s'

/-! ### The recording gate (src/main.py lines 88, 94-98) -/

/-- GUI-side state relevant to the gate: the `rec_active` flag, whether a
`RecorderThread` session is currently in progress, and how many sessions
have been started. -/
structure AppState where
  rec_active : Bool
  sessionInProgress : Bool
  sessionsStarted : ℕ
  deriving Repr, DecidableEq

/-- `self.rec_active = False` in `__init__` (line 88), before any session. -/
def appInit : AppState :=
  { rec_active := false, sessionInProgress := false, sessionsStarted := 0 }

/-- `on_spike` (lines 94-97): if `rec_active`, return with no state change;
otherwise set `rec_active`, create a `RecorderThread` and start it. -/
def on_spike (s : AppState) : AppState :=
  if s.rec_active then s
  else { rec_active := true, sessionInProgress := true
         sessionsStarted := s.sessionsStarted + 1 }

/-- `on_done` (line 98): the session ends and `rec_active` is cleared. -/
def on_done (s : AppState) : AppState :=
  { s with rec_active := false, sessionInProgress := false }

/-- Events observable by the gate. -/
inductive AppEvent where
  | spike : AppEvent
  | done : AppEvent

/-- Dispatch one event to its handler. -/
def appStep (s : AppState) : AppEvent → AppState
  | .spike => on_spike s
  | .done => on_done s

/-- Run a sequence of gate events from a state. -/
def appRun (s : AppState) (es : List AppEvent) : AppState :=
  es.foldl appStep s

/-! ## Theorems -/

/-- The correction test spelled out: `|actual - target| > 0.1`. -/
theorem needsCorrection_eq_true_iff (target actual : ℚ) :
    needsCorrection target actual = true ↔ 1/10 < |actual - target| := by
  simp [needsCorrection]

/-- 180 frames over a nominal 10 s give 18 fps. -/
theorem actual_fps_180_10 : actual_fps 180 10 = 18 := by
  norm_num [actual_fps]

/-- 200 frames over a nominal 10 s give exactly the target 20 fps. -/
theorem actual_fps_200_10 : actual_fps 200 10 = 20 := by
  norm_num [actual_fps]

/-- 18 fps against target 20 deviates by 2 fps, beyond the 0.1 threshold. -/
theorem needsCorrection_at_18 : needsCorrection fps_target 18 = true := by
  rw [needsCorrection_eq_true_iff, fps_target, lt_abs]
  norm_num

/-- 20 fps against target 20 does not deviate. -/
theorem needsCorrection_at_20 : needsCorrection fps_target 20 = false := by
  rw [Bool.eq_false_iff, Ne, needsCorrection_eq_true_iff, fps_target]
  norm_num

/-- Rounding the scaled rate at 18 fps. -/
theorem round_18_mul : round ((18 : ℚ) * 10000) = (180000 : ℤ) := by
  rw [show ((18 : ℚ) * 10000) = ((180000 : ℤ) : ℚ) by norm_num]
  exact round_intCast 180000

/-- The rate string for 18 fps. -/
theorem format4_18 : format4 18 = "18.0000" := by
  unfold format4
  rw [round_18_mul]
  decide

/-- Membership in `sessionSpikesFrom`: starting the index count at `i`,
block `j` fires exactly when `j` names a block of the sequence whose level
strictly exceeds the threshold. -/
theorem mem_sessionSpikesFrom (threshold_db : ℚ) (dbs : List ℚ) (i j : ℕ) :
    j ∈ sessionSpikesFrom threshold_db i dbs ↔
      ∃ k, k < dbs.length ∧ j = i + k ∧ threshold_db < dbs.getD k 0 := by
  induction dbs generalizing i with
  | nil => simp [sessionSpikesFrom]
  | cons db rest ih =>
    by_cases h : threshold_db < db
    · simp only [sessionSpikesFrom, cbFires, Bool.true_and, decide_eq_true_eq,
        if_pos h, List.mem_cons, ih (i + 1)]
      constructor
      · rintro (rfl | ⟨k, hk, rfl, hgt⟩)
        · exact ⟨0, by simp, by simp, by simpa using h⟩
        · exact ⟨k + 1, by simpa using hk, by omega, by simpa using hgt⟩
      · rintro ⟨k, hk, rfl, hgt⟩
        cases k with
        | zero => left; omega
        | succ k => right; exact ⟨k, by simpa using hk, by omega, by simpa using hgt⟩
    · simp only [sessionSpikesFrom, cbFires, Bool.true_and, decide_eq_true_eq,
        if_neg h, ih (i + 1)]
      constructor
      · rintro ⟨k, hk, rfl, hgt⟩
        exact ⟨k + 1, by simpa using hk, by omega, by simpa using hgt⟩
      · rintro ⟨k, hk, rfl, hgt⟩
        cases k with
        | zero => exact absurd (by simpa using hgt) h
        | succ k => exact ⟨k, by simpa using hk, by omega, by simpa using hgt⟩

/-- Claim C1: at session end the recorder computes
`actual_fps = frames_written / duration` from the nominal requested
duration; retiming is invoked if and only if `|actual_fps - 20| > 0.1`,
with the rate passed to ffmpeg formatted to exactly 4 decimal places, and
otherwise the raw video file is passed to the muxer unchanged; in
particular 180 frames over a nominal 10 s at target 20 fps give
`actual_fps = 18` and the argument string `"18.0000"`, while 200 frames
give exactly 20 fps and no retiming. -/
theorem C1_fps_correction (ts : String)
    (duration frames_written retimeExit muxExit : ℕ) :
    (finalize ts duration frames_written retimeExit muxExit).retimeInvoked
      = needsCorrection fps_target (actual_fps frames_written duration)
  ∧ (finalize ts duration frames_written retimeExit muxExit).retimeFpsArg
      = (if needsCorrection fps_target (actual_fps frames_written duration)
         then some (format4 (actual_fps frames_written duration)) else none)
  ∧ (finalize ts duration frames_written retimeExit muxExit).muxVideoInput
      = (if needsCorrection fps_target (actual_fps frames_written duration)
         then vfixName ts else vName ts)
  ∧ actual_fps 180 10 = 18
  ∧ needsCorrection fps_target (actual_fps 180 10) = true
  ∧ format4 (actual_fps 180 10) = "18.0000"
  ∧ needsCorrection fps_target (actual_fps 200 10) = false := by
  refine ⟨?_, ?_, ?_, actual_fps_180_10,
    by rw [actual_fps_180_10]; exact needsCorrection_at_18,
    by rw [actual_fps_180_10]; exact format4_18,
    by rw [actual_fps_200_10]; exact needsCorrection_at_20⟩ <;>
    · unfold finalize
      split <;> simp_all

/-- Claim C2: each iteration of the paced capture loop advances the
next-frame deadline by exactly one frame interval regardless of read
success; the clock after the iteration is the maximum of the post-read
clock and the new deadline (the thread sleeps until the deadline only when
it is still in the future); a failed read leaves `frames_written`
unchanged and is not fatal; and the loop guard holds exactly while the
monotonic elapsed time since session start is below the nominal duration,
so the loop stops at the first check past that bound. -/
theorem C2_paced_loop (frame_interval readCost start duration : ℚ)
    (readOk : Bool) (s : LoopState) (steps : List (Bool × ℚ)) :
    (loopBody frame_interval readOk readCost s).next_frame_t
      = s.next_frame_t + frame_interval
  ∧ (loopBody frame_interval readOk readCost s).frames_written
      = s.frames_written + (if readOk then 1 else 0)
  ∧ (loopBody frame_interval readOk readCost s).t
      = max (s.t + readCost) (s.next_frame_t + frame_interval)
  ∧ (loopCond (start + duration) s = true ↔ s.t - start < duration)
  ∧ (loopCond (start + duration) s = false →
      runLoop frame_interval (start + duration) steps s = s) := by
  refine ⟨rfl, by cases readOk <;> simp [loopBody], ?_, ?_, ?_⟩
  · unfold loopBody
    dsimp only
    split
    · rw [max_eq_right (by linarith)]
      ring
    · rw [max_eq_left (by linarith)]
  · simp only [loopCond, decide_eq_true_eq]
    constructor <;> intro h <;> linarith
  · intro h
    cases steps with
    | nil => rfl
    | cons p rest => rw [runLoop, h]; simp

/-- The audio and video temp-file names are distinct for every timestamp. -/
theorem aName_ne_vName (ts : String) : aName ts ≠ vName ts := by
  intro h
  have h2 : ("a_" ++ ts ++ ".wav").data = ("v_" ++ ts ++ ".mp4").data := by
    rw [aName, vName] at h
    exact congrArg String.data h
  rw [String.data_append, String.data_append, String.data_append,
    String.data_append] at h2
  have ha : ("a_" : String).data = ['a', '_'] := rfl
  have hv : ("v_" : String).data = ['v', '_'] := rfl
  rw [ha, hv] at h2
  simp at h2

/-- Claim C3 counterexample: with a nonzero mux exit status (on the
no-retiming path, where both temp files exist) the session does not fail —
`finished_recording` is still emitted with the final path, and both the
video and audio temp files are still deleted. -/
theorem C3_cex :
    ¬ ((finalizeRun "t" 10 200 0 1 true).emitted = none
       ∨ aName "t" ∉ (finalizeRun "t" 10 200 0 1 true).removed
       ∨ vName "t" ∉ (finalizeRun "t" 10 200 0 1 true).removed) := by
  have h : finalizeRun "t" 10 200 0 1 true
      = { removed := [vName "t", aName "t"]
          emitted := some (finalName "t"), raised := false } := by
    unfold finalizeRun
    rw [actual_fps_200_10, needsCorrection_at_20]
    simp
  rw [h]
  simp

/-- Claim C3 (amended): neither subprocess exit status is ever consulted —
the finalization tail is independent of both.  When no retiming is needed,
a failing muxer changes nothing: both temp files are deleted and
`finished_recording` is emitted as on success, after which `on_done`
clears `rec_active`.  When retiming is invoked, the raw video is deleted
at line 66 before any check could happen; if the (possibly failed) retimer
still produced an output file the session again ends exactly as on
success; but if it produced no output file, `os.remove(v_tmp)` at line 73
raises `FileNotFoundError` and the thread dies: only the raw video was
removed, the audio temp file survives, and `finished_recording` is never
emitted — so `on_done` (the only place `rec_active` is cleared, and it
runs exactly when the signal is emitted) never runs. -/
theorem C3_subprocess_failure_paths (ts : String)
    (duration frames_written retimeExit muxExit : ℕ) (vfixProduced : Bool)
    (s : AppState) :
    finalizeRun ts duration frames_written retimeExit muxExit vfixProduced
      = finalizeRun ts duration frames_written 0 0 vfixProduced
  ∧ (needsCorrection fps_target (actual_fps frames_written duration) = false →
      finalizeRun ts duration frames_written retimeExit muxExit vfixProduced
        = { removed := [vName ts, aName ts]
            emitted := some (finalName ts), raised := false })
  ∧ (needsCorrection fps_target (actual_fps frames_written duration) = true →
      finalizeRun ts duration frames_written retimeExit muxExit true
        = { removed := [vName ts, vfixName ts, aName ts]
            emitted := some (finalName ts), raised := false })
  ∧ (needsCorrection fps_target (actual_fps frames_written duration) = true →
      finalizeRun ts duration frames_written retimeExit muxExit false
        = { removed := [vName ts], emitted := none, raised := true }
      ∧ aName ts ∉ (finalizeRun ts duration frames_written retimeExit muxExit false).removed)
  ∧ (on_done s).rec_active = false := by
  refine ⟨rfl, fun hno => ?_, fun hyes => ?_, fun hyes => ⟨?_, ?_⟩, rfl⟩
  · unfold finalizeRun
    rw [hno]
    simp
  · unfold finalizeRun
    rw [hyes]
    simp
  · unfold finalizeRun
    rw [hyes]
    simp
  · unfold finalizeRun
    rw [hyes]
    simpa using aName_ne_vName ts

/-- Claim C5: while the session is active the spike event is edge-triggered
per block — the callback emits exactly when the block's level strictly
exceeds the threshold (a level equal to the threshold does not fire, and
nothing fires while `running` is false); over a whole session, block `j`
fires exactly when its level exceeds the threshold; and the sequence
`[-40, -20, -10, -35]` dB against threshold `-30` dB fires exactly at
indices 1 and 2. -/
theorem C5_edge_triggered (threshold_db db : ℚ) (dbs : List ℚ) (j : ℕ) :
    cbFires true threshold_db db = decide (threshold_db < db)
  ∧ cbFires false threshold_db db = false
  ∧ cbFires true threshold_db threshold_db = false
  ∧ (j ∈ sessionSpikes threshold_db dbs ↔
      j < dbs.length ∧ threshold_db < dbs.getD j 0)
  ∧ sessionSpikes (-30) [-40, -20, -10, -35] = [1, 2] := by
  refine ⟨by simp [cbFires], by simp [cbFires], by simp [cbFires], ?_, by decide⟩
  rw [sessionSpikes, mem_sessionSpikesFrom]
  constructor
  · rintro ⟨k, hk, rfl, hgt⟩
    exact ⟨by omega, by simpa using hgt⟩
  · rintro ⟨hj, hgt⟩
    exact ⟨j, hj, by omega, hgt⟩

/-- Claim C8 counterexample: when the audio input stream cannot be opened
the session does abort, but the video temp file has already been created
by the `VideoWriter`, so the set of files created before the abort is not
empty. -/
theorem C8_cex : ¬ ((startPhase "t" true false).created = ([] : List String)) := by
  decide

/-- Claim C8 (amended): the code performs no device-open check.  If the
audio input stream cannot be opened, the session aborts with an exception
— but only after the video temp file `v_<ts>.mp4` has been created by the
`VideoWriter` constructor; a camera that cannot be opened does not abort
the session at all: `cv2.VideoCapture` does not raise, and the session
proceeds with every frame read failing. -/
theorem C8_no_device_check (ts : String) (cam : Bool) :
    startPhase ts cam false = RunOutcome.exn [vName ts]
  ∧ startPhase ts false true = RunOutcome.ok [vName ts] false := by
  constructor <;> simp [startPhase]

/-- Claim C9: `rec_active` is a single-recording-at-a-time gate: it is
false in the initial state before any session; a spike arriving while it
is set leaves the whole state unchanged and starts no session; a spike
arriving while it is clear sets it and starts exactly one new session;
`on_done` clears it when the session ends; and along every event sequence
from the initial state, `rec_active` holds exactly while a session is in
progress. -/
theorem C9_rec_active_gate (s : AppState) (es : List AppEvent) :
    appInit.rec_active = false
  ∧ on_spike { s with rec_active := true } = { s with rec_active := true }
  ∧ (on_spike { s with rec_active := false }).rec_active = true
  ∧ (on_spike { s with rec_active := false }).sessionInProgress = true
  ∧ (on_spike { s with rec_active := false }).sessionsStarted
      = s.sessionsStarted + 1
  ∧ (on_done s).rec_active = false
  ∧ (on_done s).sessionInProgress = false
  ∧ (appRun appInit es).rec_active = (appRun appInit es).sessionInProgress := by
  refine ⟨rfl, by simp [on_spike], by simp [on_spike], by simp [on_spike],
    by simp [on_spike], rfl, rfl, ?_⟩
  have key : ∀ (l : List AppEvent) (a : AppState),
      a.rec_active = a.sessionInProgress →
      (appRun a l).rec_active = (appRun a l).sessionInProgress := by
    intro l
    induction l with
    | nil => intro a h; exact h
    | cons e rest ih =>
      intro a h
      apply ih
      cases e with
      | spike =>
        show (on_spike a).rec_active = (on_spike a).sessionInProgress
        unfold on_spike
        split
        · exact h
        · rfl
      | done => rfl
  exact key es appInit rfl

/-- Claim C10: for a zero nominal duration the fps computation falls back
to the target rate instead of dividing by zero: `actual_fps` is 20, the
0.1-threshold correction test is false, and finalization invokes no
retiming. -/
theorem C10_zero_duration (ts : String) (frames_written retimeExit muxExit : ℕ) :
    actual_fps frames_written 0 = fps_target
  ∧ needsCorrection fps_target (actual_fps frames_written 0) = false
  ∧ (finalize ts 0 frames_written retimeExit muxExit).retimeInvoked = false := by
  have h1 : actual_fps frames_written 0 = fps_target := by simp [actual_fps]
  have h2 : needsCorrection fps_target (actual_fps frames_written 0) = false := by
    rw [h1]; exact needsCorrection_at_20
  refine ⟨h1, h2, ?_⟩
  unfold finalize
  rw [h2]
  simp

/-- Lifecycle invariant of the monitor transition system: an open stream
implies a started session with a live thread, and a returned `wait()`
implies the thread has exited, the stream is closed, and the session was
started. -/
theorem monReachable_invariant (threshold_db : ℚ) (s : MonState)
    (h : MonReachable threshold_db s) :
    (s.streamOpen = true → s.started = true ∧ s.threadAlive = true)
  ∧ (s.stopReturned = true →
      s.threadAlive = false ∧ s.streamOpen = false ∧ s.started = true) := by
  induction h with
  | init => simp [monInit]
  | step s e s' b hr hstep ih =>
    cases e with
    | startMon =>
      by_cases hst : s.started = true
      · simp [monStep, hst] at hstep
      · simp only [monStep, hst, Bool.false_eq_true, if_false,
          Option.some.injEq, Prod.mk.injEq] at hstep
        obtain ⟨rfl, -⟩ := hstep
        have hsr : s.stopReturned = false := by
          by_contra hc
          exact hst (ih.2 (by simpa using hc)).2.2
        simp [hsr]
    | deliver db =>
      by_cases hso : s.streamOpen = true
      · simp only [monStep, hso, if_true, Option.some.injEq,
          Prod.mk.injEq] at hstep
        obtain ⟨rfl, -⟩ := hstep
        exact ih
      · simp [monStep, hso] at hstep
    | stopCall =>
      simp only [monStep, Option.some.injEq, Prod.mk.injEq] at hstep
      obtain ⟨rfl, -⟩ := hstep
      simpa using ih
    | threadExit =>
      by_cases hg : (s.threadAlive && !s.running) = true
      · simp only [monStep, hg, if_true, Option.some.injEq,
          Prod.mk.injEq] at hstep
        obtain ⟨rfl, -⟩ := hstep
        constructor
        · intro hc
          simp at hc
        · intro hsr
          exact ⟨rfl, rfl, (ih.2 hsr).2.2⟩
      · simp [monStep, hg] at hstep
    | stopRet =>
      by_cases hg : (s.started && !s.threadAlive && !s.stopReturned) = true
      · simp only [monStep, hg, if_true, Option.some.injEq,
          Prod.mk.injEq] at hstep
        obtain ⟨rfl, -⟩ := hstep
        simp only [Bool.and_eq_true, Bool.not_eq_true'] at hg
        refine ⟨fun hso => absurd (ih.1 (by simpa using hso)).2
          (by simp [hg.1.2]), fun _ => ⟨by simp [hg.1.2], ?_, by simp [hg.1.1]⟩⟩
        by_contra hc
        exact absurd (ih.1 (by simpa using hc)).2 (by simp [hg.1.2])
      · simp [monStep, hg] at hstep

/-- Claim C4: in the interleaved model of the monitor lifecycle, for any
reachable state, no audio-block delivery step exists (hence no
`spike_detected` emission is possible) before `start_mon` has run or once
`wait()` has returned — the stream is closed in both cases — and the
`wait()`-return step is only enabled once the monitor thread has fully
terminated (it blocks until then). -/
theorem C4_no_events_outside_session (threshold_db : ℚ) (s : MonState)
    (h : MonReachable threshold_db s) :
    (∀ db : ℚ, s.started = false → monStep threshold_db s (.deliver db) = none)
  ∧ (∀ db : ℚ, s.stopReturned = true → monStep threshold_db s (.deliver db) = none)
  ∧ (∀ (s' : MonState) (b : Bool), monStep threshold_db s .stopRet = some (s', b) →
      s.threadAlive = false) := by
  have inv := monReachable_invariant threshold_db s h
  refine ⟨fun db hns => ?_, fun db hsr => ?_, fun s' b hstep => ?_⟩
  · have hso : s.streamOpen = false := by
      by_contra hc
      rw [(inv.1 (by simpa using hc)).1] at hns
      exact Bool.true_eq_false.mp hns
    simp [monStep, hso]
  · have hso : s.streamOpen = false := (inv.2 hsr).2.1
    simp [monStep, hso]
  · by_cases hg : (s.started && !s.threadAlive && !s.stopReturned) = true
    · simp only [Bool.and_eq_true, Bool.not_eq_true'] at hg
      exact hg.1.2
    · simp [monStep, hg] at hstep

/-- Witness for C4 at the state reached by a complete session
start-stop cycle: `start_mon`, `stop()`, thread exit, `wait()` return. -/
theorem C4_witness :
    MonReachable (-30) ⟨true, false, false, false, true⟩
  ∧ ((∀ db : ℚ, (⟨true, false, false, false, true⟩ : MonState).started = false →
        monStep (-30) ⟨true, false, false, false, true⟩ (.deliver db) = none)
     ∧ (∀ db : ℚ, (⟨true, false, false, false, true⟩ : MonState).stopReturned = true →
        monStep (-30) ⟨true, false, false, false, true⟩ (.deliver db) = none)
     ∧ (∀ (s' : MonState) (b : Bool),
        monStep (-30) ⟨true, false, false, false, true⟩ .stopRet = some (s', b) →
        (⟨true, false, false, false, true⟩ : MonState).threadAlive = false)) :=
  have h1 : MonReachable (-30) ⟨true, true, true, true, false⟩ :=
    .step monInit .startMon _ false .init rfl
  have h2 : MonReachable (-30) ⟨true, false, true, true, false⟩ :=
    .step _ .stopCall _ false h1 rfl
  have h3 : MonReachable (-30) ⟨true, false, false, false, false⟩ :=
    .step _ .threadExit _ false h2 rfl
  have h4 : MonReachable (-30) ⟨true, false, false, false, true⟩ :=
    .step _ .stopRet _ false h3 rfl
  ⟨h4, C4_no_events_outside_session (-30) _ h4⟩

/-- The floor value in base-10 log: `log10 1e-6 = -6`. -/
theorem logb_ten_floor : Real.logb 10 (1e-6 : ℝ) = -6 := by
  have h10 : Real.log 10 ≠ 0 := ne_of_gt (Real.log_pos (by norm_num))
  have he : (1e-6 : ℝ) = (10 : ℝ) ^ (-6 : ℤ) := by
    norm_num [zpow_neg]
  rw [he, Real.logb, Real.log_zpow]
  field_simp

/-- On a nonempty block, `level` takes the finite branch everywhere and
returns `20 * log10(rms + 1e-6)`. -/
theorem level_eq_of_ne_nil (xs : List ℝ) (hxs : xs ≠ []) :
    level xs = NpVal.fin (20 * Real.logb 10 (rmsR xs + 1e-6)) := by
  have hsum : (0 : ℝ) ≤ (xs.map (fun x => x ^ 2)).sum := by
    apply List.sum_nonneg
    intro a ha
    obtain ⟨y, -, rfl⟩ := List.mem_map.mp ha
    positivity
  have hm : (0 : ℝ) ≤ (xs.map (fun x => x ^ 2)).sum / xs.length :=
    div_nonneg hsum (by positivity)
  have hpos : (0 : ℝ) <
      Real.sqrt ((xs.map (fun x => x ^ 2)).sum / xs.length) + 1e-6 := by
    have hs := Real.sqrt_nonneg ((xs.map (fun x => x ^ 2)).sum / xs.length)
    have : (0 : ℝ) < 1e-6 := by norm_num
    linarith
  have hemp : xs.isEmpty = false := by
    cases xs with
    | nil => exact absurd rfl hxs
    | cons a l => rfl
  rw [level, npMeanSq, hemp]
  simp only [Bool.false_eq_true, if_false, npSqrt, if_neg (not_lt.mpr hm),
    npAddFloor, npLog10, if_neg (not_lt.mpr hpos.le), if_neg (ne_of_gt hpos),
    npScale20, rmsR]

/-- On a nonempty all-zero block the rms is 0 and the level is exactly
`20 * log10(1e-6) = -120`. -/
theorem level_replicate_zero (n : ℕ) (hn : n ≠ 0) :
    level (List.replicate n (0 : ℝ)) = NpVal.fin (-120) := by
  have hne : List.replicate n (0 : ℝ) ≠ [] := by
    simpa using hn
  rw [level_eq_of_ne_nil _ hne]
  have hr : rmsR (List.replicate n (0 : ℝ)) = 0 := by
    rw [rmsR]
    have : ((List.replicate n (0 : ℝ)).map (fun x => x ^ 2)).sum = 0 := by
      simp
    rw [this]
    simp
  rw [hr, zero_add, logb_ten_floor]
  norm_num

/-- Claim C6: on every (nonempty) audio block the level meter returns
`20 * log10(rms + 1e-6)` with `rms` the root-mean-square of all samples of
the block; a nonempty all-zero block yields exactly
`20 * log10(1e-6) = -120`, a fixed finite value — a `fin` result, never
`-inf` and never NaN, with no error path. -/
theorem C6_level_formula (xs : List ℝ) (n : ℕ) (hxs : xs ≠ []) (hn : n ≠ 0) :
    level xs = NpVal.fin (20 * Real.logb 10 (rmsR xs + 1e-6))
  ∧ level (List.replicate n (0 : ℝ)) = NpVal.fin (-120)
  ∧ 20 * Real.logb 10 ((1e-6 : ℝ)) = -120
  ∧ level (List.replicate n (0 : ℝ)) ≠ NpVal.neginf
  ∧ level (List.replicate n (0 : ℝ)) ≠ NpVal.nan := by
  have hz := level_replicate_zero n hn
  refine ⟨level_eq_of_ne_nil xs hxs, hz, ?_, ?_, ?_⟩
  · rw [logb_ten_floor]
    norm_num
  · rw [hz]
    intro hc
    exact NpVal.noConfusion hc
  · rw [hz]
    intro hc
    exact NpVal.noConfusion hc

/-- Witness for C6 at the one-sample zero block. -/
theorem C6_witness :
    ([(0 : ℝ)] ≠ [])
  ∧ ((1 : ℕ) ≠ 0)
  ∧ (level [(0 : ℝ)] = NpVal.fin (20 * Real.logb 10 (rmsR [(0 : ℝ)] + 1e-6))
     ∧ level (List.replicate 1 (0 : ℝ)) = NpVal.fin (-120)
     ∧ 20 * Real.logb 10 ((1e-6 : ℝ)) = -120
     ∧ level (List.replicate 1 (0 : ℝ)) ≠ NpVal.neginf
     ∧ level (List.replicate 1 (0 : ℝ)) ≠ NpVal.nan) :=
  ⟨by simp, by simp, C6_level_formula [(0 : ℝ)] 1 (by simp) (by simp)⟩

/-- Claim C7 counterexample: on an empty block `np.mean` yields NaN, which
propagates through the whole level computation, so the result is NaN — not
the floor-based value `20 * log10(1e-6)` the claim requires. -/
theorem C7_cex :
    level ([] : List ℝ) = NpVal.nan
  ∧ NpVal.nan ≠ NpVal.fin (20 * Real.logb 10 ((1e-6 : ℝ))) := by
  refine ⟨rfl, fun hc => NpVal.noConfusion hc⟩

/-- Claim C7 (amended): on an empty block the level computation raises no
exception — every numpy operation is total — but it returns NaN
(`np.mean` of an empty array), not the floor-based value; the subsequent
threshold comparison `db > threshold` is false on NaN, so an empty block
can never raise a spike. -/
theorem C7_nan_on_empty (threshold_db : ℝ) :
    level ([] : List ℝ) = NpVal.nan
  ∧ ¬ npGtR (level ([] : List ℝ)) threshold_db :=
  ⟨rfl, fun hc => hc⟩

end SleepTracker
